import Mathlib

/-!
Verification of the QuickShareLink in-memory store and chat broker.

We give a shallow embedding of `server/storage.ts` (class `MemStorage`) and of
the route / websocket handlers in `server/routes.ts` that drive it, and prove
properties of the share lifecycle (one-time view, password gate, expiration)
and of the chat-room bookkeeping (membership counts, message logs).

Timestamps are modelled as `Nat` milliseconds; a JS `Map` is modelled as an
insertion-ordered association list (`Store`), with `set` replacing in place,
matching `Map.prototype.set` / `get` / `delete` semantics.  The opaque
collaborators (`randomUUID`, `bcrypt.compare`, the wall clock) are passed in
as explicit parameters.
-/

namespace QuickShare

/-- Model of a JS `Map`: insertion-ordered association list with unique keys
maintained by `set`. -/
abbrev Store (κ α : Type) := List (κ × α)

/-- Model of `Map.prototype.get`: first (unique) entry with the given key. -/
def Store.get {κ α : Type} [DecidableEq κ] (m : Store κ α) (k : κ) : Option α :=
  match m with
  | [] => none
  | (k', v) :: rest => if k' = k then some v else Store.get rest k

/-- Model of `Map.prototype.set`: replace in place if the key is present, else append. -/
def Store.set {κ α : Type} [DecidableEq κ] (m : Store κ α) (k : κ) (v : α) : Store κ α :=
  match m with
  | [] => [(k, v)]
  | (k', v') :: rest =>
    if k' = k then (k, v) :: rest else (k', v') :: Store.set rest k v

/-- Model of `Map.prototype.delete` (the resulting map). -/
def Store.del {κ α : Type} [DecidableEq κ] (m : Store κ α) (k : κ) : Store κ α :=
  m.filter (fun p => !(p.1 = k : Bool))

/-- Model of `Map.prototype.has`; `Map.prototype.delete` returns this boolean. -/
def Store.contains {κ α : Type} [DecidableEq κ] (m : Store κ α) (k : κ) : Bool :=
  (Store.get m k).isSome

/-- The keys of the map, in order. -/
def Store.keys {κ α : Type} (m : Store κ α) : List κ :=
  m.map Prod.fst

/-- Well-formedness: no duplicate keys.  Every map reachable from the empty
map through `set` / `del` / `filter` satisfies this. -/
def Store.Nodup {κ α : Type} (m : Store κ α) : Prop :=
  m.keys.Nodup

/-! ## Data model (shared/schema.ts) -/

/-- A stored share (table `shares`). -/
structure Share where
  id : String
  code : String
  type : String
  content : String
  fileName : Option String
  fileSize : Option Nat
  password : Option String
  expiresAt : Nat
  oneTimeView : Bool
  viewCount : Nat
  createdAt : Nat
deriving DecidableEq, Repr

/-- Type `InsertShare` (`insertShareSchema` omits id, createdAt, viewCount). -/
structure InsertShare where
  code : String
  type : String
  content : String
  fileName : Option String
  fileSize : Option Nat
  password : Option String
  expiresAt : Nat
  oneTimeView : Option Bool
deriving DecidableEq, Repr

/-- A chat session attached to a share code (table `chat_sessions`). -/
structure ChatSession where
  id : String
  shareCode : String
  activeUsers : Nat
  expiresAt : Nat
  createdAt : Nat
deriving DecidableEq, Repr

/-- Type `InsertChatSession` (omits id, createdAt). -/
structure InsertChatSession where
  shareCode : String
  activeUsers : Option Nat
  expiresAt : Nat
deriving DecidableEq, Repr

/-- A chat message (table `chat_messages`). -/
structure ChatMessage where
  id : String
  shareCode : String
  message : String
  userId : String
  createdAt : Nat
deriving DecidableEq, Repr

/-- Type `InsertChatMessage` (omits id, createdAt). -/
structure InsertChatMessage where
  shareCode : String
  message : String
  userId : String
deriving DecidableEq, Repr

/-- A standalone private chat session (table `private_chat_sessions`). -/
structure PrivateChatSession where
  id : String
  code : String
  activeUsers : Nat
  expiresAt : Nat
  createdAt : Nat
deriving DecidableEq, Repr

/-- Type `InsertPrivateChatSession` (omits id, createdAt). -/
structure InsertPrivateChatSession where
  code : String
  activeUsers : Option Nat
  expiresAt : Nat
deriving DecidableEq, Repr

/-- A private chat message (table `private_chat_messages`). -/
structure PrivateChatMessage where
  id : String
  chatCode : String
  message : String
  userId : String
  createdAt : Nat
deriving DecidableEq, Repr

/-- Type `InsertPrivateChatMessage` (omits id, createdAt). -/
structure InsertPrivateChatMessage where
  chatCode : String
  message : String
  userId : String
deriving DecidableEq, Repr

/-- TS `Partial<Share>`, as passed to `updateShare`; a `some` field is a key
present in the update object.  Nullable columns carry a nested option. -/
structure SharePatch where
  id : Option String := none
  code : Option String := none
  type : Option String := none
  content : Option String := none
  fileName : Option (Option String) := none
  fileSize : Option (Option Nat) := none
  password : Option (Option String) := none
  expiresAt : Option Nat := none
  oneTimeView : Option Bool := none
  viewCount : Option Nat := none
  createdAt : Option Nat := none
deriving DecidableEq, Repr

/-- JS object spread `\x7b ...share, ...updates \x7d`. -/
def applySharePatch (s : Share) (p : SharePatch) : Share where
  id := p.id.getD s.id
  code := p.code.getD s.code
  type := p.type.getD s.type
  content := p.content.getD s.content
  fileName := p.fileName.getD s.fileName
  fileSize := p.fileSize.getD s.fileSize
  password := p.password.getD s.password
  expiresAt := p.expiresAt.getD s.expiresAt
  oneTimeView := p.oneTimeView.getD s.oneTimeView
  viewCount := p.viewCount.getD s.viewCount
  createdAt := p.createdAt.getD s.createdAt

/-- TS `Partial<ChatSession>`, as passed to `updateChatSession`. -/
structure ChatSessionPatch where
  id : Option String := none
  shareCode : Option String := none
  activeUsers : Option Nat := none
  expiresAt : Option Nat := none
  createdAt : Option Nat := none
deriving DecidableEq, Repr

/-- JS object spread for chat sessions. -/
def applyChatSessionPatch (s : ChatSession) (p : ChatSessionPatch) : ChatSession where
  id := p.id.getD s.id
  shareCode := p.shareCode.getD s.shareCode
  activeUsers := p.activeUsers.getD s.activeUsers
  expiresAt := p.expiresAt.getD s.expiresAt
  createdAt := p.createdAt.getD s.createdAt

/-- TS `Partial<PrivateChatSession>`, as passed to `updatePrivateChatSession`. -/
structure PrivateChatSessionPatch where
  id : Option String := none
  code : Option String := none
  activeUsers : Option Nat := none
  expiresAt : Option Nat := none
  createdAt : Option Nat := none
deriving DecidableEq, Repr

/-- JS object spread for private chat sessions. -/
def applyPrivateChatSessionPatch (s : PrivateChatSession) (p : PrivateChatSessionPatch) :
    PrivateChatSession where
  id := p.id.getD s.id
  code := p.code.getD s.code
  activeUsers := p.activeUsers.getD s.activeUsers
  expiresAt := p.expiresAt.getD s.expiresAt
  createdAt := p.createdAt.getD s.createdAt

/-! ## MemStorage state (server/storage.ts) -/

/-- The five maps of `MemStorage`. -/
structure StorageState where
  shares : Store String Share := []
  chatSessions : Store String ChatSession := []
  chatMessages : Store String (List ChatMessage) := []
  privateChatSessions : Store String PrivateChatSession := []
  privateChatMessages : Store String (List PrivateChatMessage) := []
deriving DecidableEq, Repr

/-- JS `x || null` on a nullable string (empty string is falsy). -/
def orNullStr (o : Option String) : Option String :=
  match o with
  | some s => if s = "" then none else some s
  | none => none

/-- JS `x || null` on a nullable number (0 is falsy). -/
def orNullNat (o : Option Nat) : Option Nat :=
  match o with
  | some 0 => none
  | some n => some n
  | none => none

/-- Embeds `MemStorage.createShare`: builds the share record (with `randomUUID` and
`new Date()` passed in as `id` and `now`) and stores it under its code,
unconditionally. -/
def createShare (st : StorageState) (ins : InsertShare) (id : String) (now : Nat) :
    Share × StorageState :=
  let share : Share :=
    { id := id
      code := ins.code
      type := ins.type
      content := ins.content
      password := orNullStr ins.password
      fileName := orNullStr ins.fileName
      fileSize := orNullNat ins.fileSize
      oneTimeView := ins.oneTimeView.getD false
      viewCount := 0
      expiresAt := ins.expiresAt
      createdAt := now }
  (share, { st with shares := st.shares.set share.code share })

/-- Embeds `MemStorage.getShareByCode`: lazy expiration — a share with
`expiresAt < now` is deleted and reported absent. -/
def getShareByCode (st : StorageState) (code : String) (now : Nat) :
    Option Share × StorageState :=
  match Store.get st.shares code with
  | none => (none, st)
  | some share =>
    if share.expiresAt < now then
      (none, { st with shares := st.shares.del code })
    else
      (some share, st)

/-- Embeds `MemStorage.updateShare`: merge the patch into the existing share;
returns `none` and leaves the store untouched when the code is absent. -/
def updateShare (st : StorageState) (code : String) (p : SharePatch) :
    Option Share × StorageState :=
  match Store.get st.shares code with
  | none => (none, st)
  | some share =>
    let updated := applySharePatch share p
    (some updated, { st with shares := st.shares.set code updated })

/-- Embeds `MemStorage.deleteShare`. -/
def deleteShare (st : StorageState) (code : String) : Bool × StorageState :=
  (st.shares.contains code, { st with shares := st.shares.del code })

/-- Embeds `MemStorage.createChatSession`. -/
def createChatSession (st : StorageState) (ins : InsertChatSession) (id : String)
    (now : Nat) : ChatSession × StorageState :=
  let session : ChatSession :=
    { id := id
      shareCode := ins.shareCode
      activeUsers := ins.activeUsers.getD 0
      expiresAt := ins.expiresAt
      createdAt := now }
  (session, { st with chatSessions := st.chatSessions.set session.shareCode session })

/-- Embeds `MemStorage.getChatSession`: lazy expiration deletes the session and its
message log together. -/
def getChatSession (st : StorageState) (shareCode : String) (now : Nat) :
    Option ChatSession × StorageState :=
  match Store.get st.chatSessions shareCode with
  | none => (none, st)
  | some session =>
    if session.expiresAt < now then
      (none, { st with
        chatSessions := st.chatSessions.del shareCode
        chatMessages := st.chatMessages.del shareCode })
    else
      (some session, st)

/-- Embeds `MemStorage.updateChatSession`. -/
def updateChatSession (st : StorageState) (shareCode : String) (p : ChatSessionPatch) :
    Option ChatSession × StorageState :=
  match Store.get st.chatSessions shareCode with
  | none => (none, st)
  | some session =>
    let updated := applyChatSessionPatch session p
    (some updated, { st with chatSessions := st.chatSessions.set shareCode updated })

/-- Embeds `MemStorage.deleteChatSession`: removes the message log and the session. -/
def deleteChatSession (st : StorageState) (shareCode : String) : Bool × StorageState :=
  (st.chatSessions.contains shareCode,
   { st with
     chatMessages := st.chatMessages.del shareCode
     chatSessions := st.chatSessions.del shareCode })

/-- Embeds `MemStorage.createChatMessage`: appends to the (possibly missing) log for
the share code, with no check that a session exists or is live. -/
def createChatMessage (st : StorageState) (ins : InsertChatMessage) (id : String)
    (now : Nat) : ChatMessage × StorageState :=
  let message : ChatMessage :=
    { id := id
      shareCode := ins.shareCode
      message := ins.message
      userId := ins.userId
      createdAt := now }
  let messages := (Store.get st.chatMessages ins.shareCode).getD []
  (message,
   { st with chatMessages := st.chatMessages.set ins.shareCode (messages ++ [message]) })

/-- Embeds `MemStorage.getChatMessages`. -/
def getChatMessages (st : StorageState) (shareCode : String) : List ChatMessage :=
  (Store.get st.chatMessages shareCode).getD []

/-- Embeds `MemStorage.createPrivateChatSession`. -/
def createPrivateChatSession (st : StorageState) (ins : InsertPrivateChatSession)
    (id : String) (now : Nat) : PrivateChatSession × StorageState :=
  let session : PrivateChatSession :=
    { id := id
      code := ins.code
      activeUsers := ins.activeUsers.getD 0
      expiresAt := ins.expiresAt
      createdAt := now }
  (session,
   { st with privateChatSessions := st.privateChatSessions.set session.code session })

/-- Embeds `MemStorage.getPrivateChatSession`: lazy expiration deletes the session
and its message log together. -/
def getPrivateChatSession (st : StorageState) (chatCode : String) (now : Nat) :
    Option PrivateChatSession × StorageState :=
  match Store.get st.privateChatSessions chatCode with
  | none => (none, st)
  | some session =>
    if session.expiresAt < now then
      (none, { st with
        privateChatSessions := st.privateChatSessions.del chatCode
        privateChatMessages := st.privateChatMessages.del chatCode })
    else
      (some session, st)

/-- Embeds `MemStorage.updatePrivateChatSession`. -/
def updatePrivateChatSession (st : StorageState) (chatCode : String)
    (p : PrivateChatSessionPatch) : Option PrivateChatSession × StorageState :=
  match Store.get st.privateChatSessions chatCode with
  | none => (none, st)
  | some session =>
    let updated := applyPrivateChatSessionPatch session p
    (some updated,
     { st with privateChatSessions := st.privateChatSessions.set chatCode updated })

/-- Embeds `MemStorage.deletePrivateChatSession`: removes the message log and the
session. -/
def deletePrivateChatSession (st : StorageState) (chatCode : String) :
    Bool × StorageState :=
  (st.privateChatSessions.contains chatCode,
   { st with
     privateChatMessages := st.privateChatMessages.del chatCode
     privateChatSessions := st.privateChatSessions.del chatCode })

/-- Embeds `MemStorage.createPrivateChatMessage`. -/
def createPrivateChatMessage (st : StorageState) (ins : InsertPrivateChatMessage)
    (id : String) (now : Nat) : PrivateChatMessage × StorageState :=
  let message : PrivateChatMessage :=
    { id := id
      chatCode := ins.chatCode
      message := ins.message
      userId := ins.userId
      createdAt := now }
  let messages := (Store.get st.privateChatMessages ins.chatCode).getD []
  (message,
   { st with
     privateChatMessages :=
       st.privateChatMessages.set ins.chatCode (messages ++ [message]) })

/-- Embeds `MemStorage.getPrivateChatMessages`. -/
def getPrivateChatMessages (st : StorageState) (chatCode : String) :
    List PrivateChatMessage :=
  (Store.get st.privateChatMessages chatCode).getD []

/-- Embeds `MemStorage.cleanupExpired`: the periodic sweep deletes every share /
session with `expiresAt < now`, and the message log of every expired
session. -/
def cleanupExpired (st : StorageState) (now : Nat) : StorageState where
  shares := st.shares.filter (fun p => !(p.2.expiresAt < now : Bool))
  chatSessions := st.chatSessions.filter (fun p => !(p.2.expiresAt < now : Bool))
  chatMessages := st.chatMessages.filter (fun p =>
    match Store.get st.chatSessions p.1 with
    | some session => !(session.expiresAt < now : Bool)
    | none => true)
  privateChatSessions :=
    st.privateChatSessions.filter (fun p => !(p.2.expiresAt < now : Bool))
  privateChatMessages := st.privateChatMessages.filter (fun p =>
    match Store.get st.privateChatSessions p.1 with
    | some session => !(session.expiresAt < now : Bool)
    | none => true)

/-! ## Route layer (server/routes.ts) -/

/-- JS `String.prototype.toUpperCase()`, applied to every code before it
reaches the storage layer. -/
def jsUpper (s : String) : String :=
  String.mk (s.data.map Char.toUpper)

/-- Outcome of `GET /api/shares/:code` (status codes and response body shape). -/
inductive ReadResult where
  | notFound
  | requiresPassword
  | unauthorized
  | ok (type content : String) (fileName : Option String) (fileSize : Option Nat)
       (expiresAt viewCount : Nat)
deriving DecidableEq, Repr

/-- The read endpoint `app.get("/api/shares/:code")`: looks the share up under
the upper-cased code, gates on the password (`bcrypt.compare` is passed in as
`bcryptCompare`), then increments `viewCount` via `updateShare` and, for a
one-time-view share, deletes it before responding with the content. -/
def consumeView (bcryptCompare : String → String → Bool) (st : StorageState)
    (code : String) (password : Option String) (now : Nat) :
    ReadResult × StorageState :=
  let up := jsUpper code
  match getShareByCode st up now with
  | (none, st1) => (ReadResult.notFound, st1)
  | (some share, st1) =>
    let gate : Option ReadResult :=
      match share.password with
      | none => none
      | some stored =>
        match password with
        | none => some ReadResult.requiresPassword
        | some p => if bcryptCompare p stored then none else some ReadResult.unauthorized
    match gate with
    | some r => (r, st1)
    | none =>
      let (updated, st2) := updateShare st1 up { viewCount := some (share.viewCount + 1) }
      let st3 := if share.oneTimeView then (deleteShare st2 up).2 else st2
      let vc : Nat :=
        match updated with
        | some u => if u.viewCount = 0 then share.viewCount + 1 else u.viewCount
        | none => share.viewCount + 1
      (ReadResult.ok share.type share.content share.fileName share.fileSize
         share.expiresAt vc, st3)

/-- Route `POST /api/private-chat`: creates a standalone room with a 2-hour TTL and
`activeUsers = 0`. -/
def createPrivateChatRoom (st : StorageState) (code : String) (id : String)
    (now : Nat) : PrivateChatSession × StorageState :=
  let ins : InsertPrivateChatSession :=
    { code := code, activeUsers := some 0, expiresAt := now + 7200000 }
  createPrivateChatSession st ins id now

/-! ## Websocket broker (server/routes.ts, wss.on) -/

/-- Entry of the `clients` map: a connection bound to a room code and user. -/
structure ClientConn where
  shareCode : String
  userId : String
deriving DecidableEq, Repr

/-- Broker state: the storage plus the `clients` and `shareRooms` maps.
Connections are identified by `Nat` handles; a JS `Set<WebSocket>` is an
insertion-ordered duplicate-free list. -/
structure BrokerState where
  storage : StorageState := {}
  clients : Store Nat ClientConn := []
  shareRooms : Store String (List Nat) := []
deriving DecidableEq, Repr

/-- Model of `Set.prototype.add`. -/
def setAdd (l : List Nat) (w : Nat) : List Nat :=
  if w ∈ l then l else l ++ [w]

/-- Model of `Set.prototype.delete` (the resulting set). -/
def setDel (l : List Nat) (w : Nat) : List Nat :=
  l.filter (fun x => !(x = w : Bool))

/-- Size of the room set under a code, with 0 for a missing room. -/
def roomSize (rooms : Store String (List Nat)) (code : String) : Nat :=
  ((Store.get rooms code).getD []).length

/-- The `join` message handler: verifies the share, registers the
connection in `clients` and in the room set, then creates the chat session
(`activeUsers = 1`, 30-minute TTL) or updates its `activeUsers` to the room
size.  Broadcasts do not change state and are omitted. -/
def handleJoin (bs : BrokerState) (ws : Nat) (shareCode userId : String)
    (sessionId : String) (now : Nat) : BrokerState :=
  let up := jsUpper shareCode
  match getShareByCode bs.storage up now with
  | (none, st1) => { bs with storage := st1 }
  | (some _, st1) =>
    let clients := bs.clients.set ws { shareCode := up, userId := userId }
    let rooms :=
      match Store.get bs.shareRooms up with
      | none => bs.shareRooms.set up (setAdd [] ws)
      | some l => bs.shareRooms.set up (setAdd l ws)
    match getChatSession st1 up now with
    | (none, st2) =>
      let (_, st3) := createChatSession st2
        { shareCode := up, activeUsers := some 1, expiresAt := now + 1800000 }
        sessionId now
      { storage := st3, clients := clients, shareRooms := rooms }
    | (some _, st2) =>
      let (_, st3) := updateChatSession st2 up { activeUsers := some (roomSize rooms up) }
      { storage := st3, clients := clients, shareRooms := rooms }

/-- The `joinPrivateChat` message handler: verifies the private session,
registers the connection, and updates the stored `activeUsers` to the room
size. -/
def handleJoinPrivate (bs : BrokerState) (ws : Nat) (chatCode userId : String)
    (now : Nat) : BrokerState :=
  let up := jsUpper chatCode
  match getPrivateChatSession bs.storage up now with
  | (none, st1) => { bs with storage := st1 }
  | (some _, st1) =>
    let clients := bs.clients.set ws { shareCode := up, userId := userId }
    let rooms :=
      match Store.get bs.shareRooms up with
      | none => bs.shareRooms.set up (setAdd [] ws)
      | some l => bs.shareRooms.set up (setAdd l ws)
    let (_, st2) := updatePrivateChatSession st1 up
      { activeUsers := some (roomSize rooms up) }
    { storage := st2, clients := clients, shareRooms := rooms }

/-- The `message` handler: a joined connection appends a chat message. -/
def handleMessage (bs : BrokerState) (ws : Nat) (content : String) (id : String)
    (now : Nat) : BrokerState :=
  match Store.get bs.clients ws with
  | none => bs
  | some client =>
    let (_, st1) := createChatMessage bs.storage
      { shareCode := client.shareCode, message := content, userId := client.userId } id now
    { bs with storage := st1 }

/-- The `privateMessage` handler: a joined connection appends a private
chat message. -/
def handlePrivateMessage (bs : BrokerState) (ws : Nat) (content : String)
    (id : String) (now : Nat) : BrokerState :=
  match Store.get bs.clients ws with
  | none => bs
  | some client =>
    let (_, st1) := createPrivateChatMessage bs.storage
      { chatCode := client.shareCode, message := content, userId := client.userId } id now
    { bs with storage := st1 }

/-- The websocket close handler (`ws.on` with the close event): deregisters the connection; when the room
set becomes empty it drops the room and calls `deleteChatSession` on the
code, otherwise it calls `updateChatSession` with the new size — in both
cases regardless of whether the code names a content room or a standalone
private chat room. -/
def handleClose (bs : BrokerState) (ws : Nat) : BrokerState :=
  match Store.get bs.clients ws with
  | none => bs
  | some client =>
    match Store.get bs.shareRooms client.shareCode with
    | none => { bs with clients := bs.clients.del ws }
    | some l =>
      let l' := setDel l ws
      if l'.length = 0 then
        let (_, st1) := deleteChatSession bs.storage client.shareCode
        { storage := st1, clients := bs.clients.del ws,
          shareRooms := bs.shareRooms.del client.shareCode }
      else
        let (_, st1) := updateChatSession bs.storage client.shareCode
          { activeUsers := some l'.length }
        { storage := st1, clients := bs.clients.del ws,
          shareRooms := bs.shareRooms.set client.shareCode l' }

/-! ## Auxiliary definitions for the theorems -/

/-- The password gate of the read endpoint passes: either the stored share has
no password, or the request carries a password accepted by `bcrypt.compare`. -/
def passGate (cmp : String → String → Bool) (stored given : Option String) : Prop :=
  match stored with
  | none => True
  | some s => ∃ p, given = some p ∧ cmp p s = true

/-- Fixture: a live one-time-view text share under code C1. -/
def w1Share : Share :=
  { id := "i0", code := "C1", type := "text", content := "hello", fileName := none,
    fileSize := none, password := none, expiresAt := 60000, oneTimeView := true,
    viewCount := 0, createdAt := 0 }

/-- Fixture: a store holding only `w1Share`. -/
def w1St : StorageState := { shares := [(("C1" : String), w1Share)] }

/-- Fixture: a live share under code AB, not one-time, no password. -/
def w2Share : Share :=
  { id := "i0", code := "AB", type := "text", content := "old", fileName := none,
    fileSize := none, password := none, expiresAt := 1000, oneTimeView := false,
    viewCount := 0, createdAt := 0 }

/-- Fixture: a store holding only `w2Share`. -/
def w2St : StorageState := { shares := [(("AB" : String), w2Share)] }

/-- Fixture: a creation request reusing the live code AB. -/
def w2Ins : InsertShare :=
  { code := "AB", type := "text", content := "new", fileName := none,
    fileSize := none, password := none, expiresAt := 2000, oneTimeView := none }

/-- Fixture: a live password-protected share under code P1. -/
def w6Share : Share :=
  { id := "i6", code := "P1", type := "text", content := "secret-text",
    fileName := none, fileSize := none, password := some "hashed", expiresAt := 60000,
    oneTimeView := true, viewCount := 0, createdAt := 0 }

/-- Fixture: a store holding only `w6Share`. -/
def w6St : StorageState := { shares := [(("P1" : String), w6Share)] }

/-- Fixture: a share whose expiry timestamp is exactly 100. -/
def w7Share : Share :=
  { id := "i7", code := "AB", type := "text", content := "x", fileName := none,
    fileSize := none, password := none, expiresAt := 100, oneTimeView := false,
    viewCount := 0, createdAt := 0 }

/-- Fixture: a store holding only `w7Share`. -/
def w7St : StorageState := { shares := [(("AB" : String), w7Share)] }

/-- Fixture: a live chat session for share code S1. -/
def w8Session : ChatSession :=
  { id := "s1", shareCode := "S1", activeUsers := 1, expiresAt := 1000, createdAt := 0 }

/-- Fixture: a store holding only `w8Session`. -/
def w8St : StorageState := { chatSessions := [(("S1" : String), w8Session)] }

/-- Fixture: first message sent to room M1. -/
def w9Ins1 : InsertChatMessage := { shareCode := "M1", message := "a", userId := "u" }

/-- Fixture: second message sent to room M1. -/
def w9Ins2 : InsertChatMessage := { shareCode := "M1", message := "b", userId := "v" }

/-- Fixture: broker state after creating standalone private room R1. -/
def c4bs1 : BrokerState := { storage := (createPrivateChatRoom {} ("R1") ("sid") 0).2 }

/-- Fixture: connection 1 joins private room R1. -/
def c4bs2 : BrokerState := handleJoinPrivate c4bs1 1 ("R1") ("A") 0

/-- Fixture: connection 1 sends a private message in R1. -/
def c4bs3 : BrokerState := handlePrivateMessage c4bs2 1 ("hi") ("m1") 0

/-- Fixture: connection 1, the last participant of R1, disconnects. -/
def c4bs4 : BrokerState := handleClose c4bs3 1

/-- Fixture: broker state after creating standalone private room R2. -/
def c5bs1 : BrokerState := { storage := (createPrivateChatRoom {} ("R2") ("sid") 0).2 }

/-- Fixture: connection 1 joins private room R2. -/
def c5bs2 : BrokerState := handleJoinPrivate c5bs1 1 ("R2") ("A") 0

/-- Fixture: connection 2 joins private room R2. -/
def c5bs3 : BrokerState := handleJoinPrivate c5bs2 2 ("R2") ("B") 0

/-- Fixture: connection 1 disconnects from R2, leaving connection 2. -/
def c5bs4 : BrokerState := handleClose c5bs3 1

/-! ## Store lemmas -/

theorem Store.get_set_self {κ α : Type} [DecidableEq κ] (m : Store κ α) (k : κ) (v : α) :
    Store.get (Store.set m k v) k = some v := by
  induction m with
  | nil => simp [Store.set, Store.get]
  | cons hd tl ih =>
    obtain ⟨k', v'⟩ := hd
    by_cases h : k' = k
    · simp [Store.set, Store.get, h]
    · simp [Store.set, Store.get, h, ih]

theorem Store.get_del_self {κ α : Type} [DecidableEq κ] (m : Store κ α) (k : κ) :
    Store.get (Store.del m k) k = none := by
  induction m with
  | nil => rfl
  | cons hd tl ih =>
    obtain ⟨k', v'⟩ := hd
    by_cases h : k' = k
    · simpa [Store.del, List.filter_cons, h] using ih
    · simpa [Store.del, List.filter_cons, h, Store.get] using ih

theorem Store.get_eq_none_of_not_mem {κ α : Type} [DecidableEq κ] (m : Store κ α)
    (k : κ) (h : k ∉ Store.keys m) : Store.get m k = none := by
  induction m with
  | nil => rfl
  | cons hd tl ih =>
    obtain ⟨k', v'⟩ := hd
    rw [Store.keys, List.map_cons, List.mem_cons] at h
    push_neg at h
    rw [Store.get, if_neg (fun hkk => h.1 hkk.symm)]
    exact ih h.2

theorem Store.keys_filter_subset {κ α : Type} (m : Store κ α) (p : κ × α → Bool) :
    Store.keys (m.filter p) ⊆ Store.keys m := by
  intro x hx
  rw [Store.keys, List.mem_map] at hx
  rw [Store.keys, List.mem_map]
  obtain ⟨pr, hpr, hfst⟩ := hx
  exact ⟨pr, List.mem_of_mem_filter hpr, hfst⟩

theorem Store.get_filter {κ α : Type} [DecidableEq κ] (m : Store κ α)
    (p : κ × α → Bool) (k : κ) (v : α) (hnd : Store.Nodup m)
    (h : Store.get m k = some v) :
    Store.get (m.filter p) k = if p (k, v) then some v else none := by
  induction m with
  | nil => simp [Store.get] at h
  | cons hd tl ih =>
    obtain ⟨k', v'⟩ := hd
    rw [Store.Nodup, Store.keys, List.map_cons, List.nodup_cons] at hnd
    by_cases hk : k' = k
    · subst hk
      rw [Store.get, if_pos rfl] at h
      injection h with h
      subst h
      by_cases hp : p (k', v')
      · rw [List.filter_cons, if_pos (by simpa using hp), Store.get, if_pos rfl, if_pos hp]
      · rw [List.filter_cons, if_neg (by simpa using hp), if_neg hp]
        exact Store.get_eq_none_of_not_mem _ _
          (fun hmem => hnd.1 (Store.keys_filter_subset tl p hmem))
    · rw [Store.get, if_neg hk] at h
      have htl := ih hnd.2 h
      rw [List.filter_cons]
      by_cases hp' : p (k', v')
      · rw [if_pos (by simpa using hp'), Store.get, if_neg hk]
        exact htl
      · rw [if_neg (by simpa using hp')]
        exact htl

/-- The read endpoint on a live share, once the password gate passes:
increments `viewCount` through `updateShare` and then (for a one-time-view
share) deletes the entry, responding with the content. -/
theorem consumeView_gate_passed_eq (cmp : String → String → Bool)
    (st : StorageState) (code : String) (pw : Option String) (now : Nat)
    (share : Share)
    (hget : Store.get st.shares (jsUpper code) = some share)
    (hlive : ¬ share.expiresAt < now)
    (hone : share.oneTimeView = true)
    (hgate : passGate cmp share.password pw) :
    consumeView cmp st code pw now
      = (ReadResult.ok share.type share.content share.fileName share.fileSize
           share.expiresAt (share.viewCount + 1),
         { st with shares := Store.del (Store.set st.shares (jsUpper code)
             { share with viewCount := share.viewCount + 1 }) (jsUpper code) }) := by
  have hup : getShareByCode st (jsUpper code) now = (some share, st) := by
    simp [getShareByCode, hget, hlive]
  cases hps : share.password with
  | none =>
    simp [consumeView, hup, updateShare, hget, hone, hps, deleteShare,
      applySharePatch]
  | some stored =>
    have hg' := hgate
    simp only [passGate, hps] at hg'
    obtain ⟨p, hp, hcmp⟩ := hg'
    subst hp
    simp [consumeView, hup, updateShare, hget, hone, hps, hcmp, deleteShare,
      applySharePatch]

/-! ## Claim theorems -/

/-- C1: for a live one-time-view entry, the first read through the endpoint
(after the password gate passes) returns the content with the bumped view
count, the entry is deleted from the store as part of that read, and every
subsequent read of the same code — through the endpoint or directly through
the storage lookup — reports NotFound. -/
theorem oneTimeView_consumed_exactly_once (cmp : String → String → Bool)
    (st : StorageState) (code : String) (pw : Option String) (now : Nat)
    (share : Share)
    (hget : Store.get st.shares (jsUpper code) = some share)
    (hlive : ¬ share.expiresAt < now)
    (hone : share.oneTimeView = true)
    (hgate : passGate cmp share.password pw)
    (pw' : Option String) (now' : Nat) :
    (consumeView cmp st code pw now).1
        = ReadResult.ok share.type share.content share.fileName share.fileSize
            share.expiresAt (share.viewCount + 1)
      ∧ Store.get (consumeView cmp st code pw now).2.shares (jsUpper code) = none
      ∧ (consumeView cmp (consumeView cmp st code pw now).2 code pw' now').1
          = ReadResult.notFound
      ∧ (getShareByCode (consumeView cmp st code pw now).2 (jsUpper code) now').1
          = none := by
  have heq := consumeView_gate_passed_eq cmp st code pw now share hget hlive hone hgate
  have hnone : Store.get (consumeView cmp st code pw now).2.shares (jsUpper code)
      = none := by
    rw [heq]
    exact Store.get_del_self _ _
  refine ⟨by rw [heq], hnone, ?_, ?_⟩
  · rw [heq]
    simp [consumeView, getShareByCode, Store.get_del_self]
  · rw [heq]
    simp [getShareByCode, Store.get_del_self]

/-- C1 witness: the scenario of the spec — a one-time text share "hello"
under code C1, read twice. -/
theorem oneTimeView_consumed_exactly_once_witness :
    (consumeView (fun _ _ => false) w1St ("c1") none 5).1
        = ReadResult.ok w1Share.type w1Share.content w1Share.fileName w1Share.fileSize
            w1Share.expiresAt (w1Share.viewCount + 1)
      ∧ Store.get (consumeView (fun _ _ => false) w1St ("c1") none 5).2.shares
          (jsUpper ("c1")) = none
      ∧ (consumeView (fun _ _ => false)
            (consumeView (fun _ _ => false) w1St ("c1") none 5).2 ("c1")
            (some ("z")) 99).1 = ReadResult.notFound
      ∧ (getShareByCode (consumeView (fun _ _ => false) w1St ("c1") none 5).2
            (jsUpper ("c1")) 99).1 = none :=
  oneTimeView_consumed_exactly_once (fun _ _ => false) w1St ("c1") none 5 w1Share
    (by decide) (by decide) rfl trivial (some ("z")) 99

/-- C2 counterexample: a live entry is stored under code AB (not expired at
time 3), yet `createShare` with the same code succeeds and replaces it with
the new entry — it neither fails nor leaves the live entry unchanged. -/
theorem createShare_duplicate_code_silent_replace_cex :
    Store.get w2St.shares ("AB") = some w2Share
      ∧ ¬ w2Share.expiresAt < 3
      ∧ Store.get (createShare w2St w2Ins ("i1") 3).2.shares ("AB")
          = some (createShare w2St w2Ins ("i1") 3).1
      ∧ (createShare w2St w2Ins ("i1") 3).1 ≠ w2Share := by decide

/-- C2 amended: `createShare` performs no duplicate-code check — for every
prior store state it succeeds, returns a fresh entry with `viewCount = 0`,
and stores it under its code, replacing whatever was there. -/
theorem createShare_always_stores_unconditionally (st : StorageState)
    (ins : InsertShare) (id : String) (now : Nat) :
    (createShare st ins id now).1.code = ins.code
      ∧ (createShare st ins id now).1.viewCount = 0
      ∧ Store.get (createShare st ins id now).2.shares ins.code
          = some (createShare st ins id now).1 := by
  refine ⟨rfl, rfl, ?_⟩
  simp [createShare, Store.get_set_self]

/-- C3 counterexample: with no chat session stored for code XY,
`createChatMessage` still succeeds and appends the message to a fresh log. -/
theorem createChatMessage_without_room_cex :
    Store.get ({} : StorageState).chatSessions ("XY") = none
      ∧ getChatMessages
          (createChatMessage {}
            { shareCode := "XY", message := "hi", userId := "u" } ("m1") 0).2 ("XY")
          = [{ id := "m1", shareCode := "XY", message := "hi", userId := "u",
               createdAt := 0 }] := by decide

/-- C3 amended: `createChatMessage` never fails with RoomNotFound — for every
store state it assigns id and timestamp and appends the message to the log
under the given code, creating the log when absent, with no check that a room
exists or is live. -/
theorem createChatMessage_appends_unconditionally (st : StorageState)
    (ins : InsertChatMessage) (id : String) (now : Nat) :
    (createChatMessage st ins id now).1
        = { id := id, shareCode := ins.shareCode, message := ins.message,
            userId := ins.userId, createdAt := now }
      ∧ getChatMessages (createChatMessage st ins id now).2 ins.shareCode
          = getChatMessages st ins.shareCode
              ++ [(createChatMessage st ins id now).1] := by
  refine ⟨rfl, ?_⟩
  simp [createChatMessage, getChatMessages, Store.get_set_self]

/-- C4 (bug witness): standalone private room R1 is created, one participant
joins and chats, then disconnects.  The broker empties its membership and
deregisters the connection, but the close handler deletes only a (nonexistent)
content-room session under R1, so the private session AND its message log both
survive in the store. -/
theorem privateRoom_survives_last_disconnect :
    Store.get c4bs4.shareRooms ("R1") = none
      ∧ Store.get c4bs4.clients 1 = none
      ∧ Store.get c4bs4.storage.privateChatSessions ("R1")
          = some { id := "sid", code := "R1", activeUsers := 1,
                   expiresAt := 7200000, createdAt := 0 }
      ∧ getPrivateChatMessages c4bs4.storage ("R1")
          = [{ id := "m1", chatCode := "R1", message := "hi", userId := "A",
               createdAt := 0 }] := by decide

/-- C5 (bug witness): two participants join standalone private room R2 and
the first disconnects.  One open connection remains registered, but the close
handler updates only the content-room store, so the stored `activeUsers` of
the private session is still 2. -/
theorem privateRoom_activeUsers_stale_after_disconnect :
    roomSize c5bs4.shareRooms ("R2") = 1
      ∧ (Store.get c5bs4.storage.privateChatSessions ("R2")).map
          PrivateChatSession.activeUsers = some 2 := by decide

/-- C6: on a live password-protected entry, a read with no password or with a
password that `bcrypt.compare` rejects returns the password-required or
unauthorized signal and leaves the entire store unchanged — no view count
increment and no one-time deletion. -/
theorem passwordGate_fails_without_mutation (cmp : String → String → Bool)
    (st : StorageState) (code : String) (pw : Option String) (now : Nat)
    (share : Share) (stored : String)
    (hget : Store.get st.shares (jsUpper code) = some share)
    (hlive : ¬ share.expiresAt < now)
    (hpass : share.password = some stored)
    (hfail : ∀ p, pw = some p → cmp p stored = false) :
    (consumeView cmp st code pw now).2 = st
      ∧ ((consumeView cmp st code pw now).1 = ReadResult.requiresPassword
         ∨ (consumeView cmp st code pw now).1 = ReadResult.unauthorized) := by
  have hup : getShareByCode st (jsUpper code) now = (some share, st) := by
    simp [getShareByCode, hget, hlive]
  cases pw with
  | none => simp [consumeView, hup, hpass]
  | some p =>
    have hc := hfail p rfl
    simp [consumeView, hup, hpass, hc]

/-- C6 witness: a wrong password against the protected share P1. -/
theorem passwordGate_fails_without_mutation_witness :
    (consumeView (fun _ _ => false) w6St ("p1") (some ("x")) 5).2 = w6St
      ∧ ((consumeView (fun _ _ => false) w6St ("p1") (some ("x")) 5).1
            = ReadResult.requiresPassword
         ∨ (consumeView (fun _ _ => false) w6St ("p1") (some ("x")) 5).1
            = ReadResult.unauthorized) :=
  passwordGate_fails_without_mutation (fun _ _ => false) w6St ("p1") (some ("x")) 5
    w6Share ("hashed") (by decide) (by decide) rfl (fun _ _ => rfl)

/-- C7 counterexample: at the boundary `expiresAt = now` (timestamp 100) the
entry is NOT treated as expired — the lazy read returns it, leaves the store
unchanged, and the sweep keeps it, contradicting the claimed
`expiresAt ≤ now` predicate. -/
theorem expiry_boundary_live_at_equality_cex :
    (getShareByCode w7St ("AB") 100).1 = some w7Share
      ∧ (getShareByCode w7St ("AB") 100).2 = w7St
      ∧ Store.get (cleanupExpired w7St 100).shares ("AB") = some w7Share := by decide

/-- C7 amended: both the lazy read and the periodic sweep decide expiry by
the same strict predicate `expiresAt < now`: the read reports the entry
absent exactly when `expiresAt < now` (and then deletes it), and the sweep
removes it exactly when `expiresAt < now`. -/
theorem expiry_strict_lt_both_paths (st : StorageState) (code : String)
    (now : Nat) (share : Share)
    (hget : Store.get st.shares code = some share)
    (hnd : Store.Nodup st.shares) :
    ((getShareByCode st code now).1 = none ↔ share.expiresAt < now)
      ∧ (share.expiresAt < now →
          Store.get (getShareByCode st code now).2.shares code = none)
      ∧ (Store.get (cleanupExpired st now).shares code = none
          ↔ share.expiresAt < now) := by
  have hf := Store.get_filter st.shares
      (fun p => !(p.2.expiresAt < now : Bool)) code share hnd hget
  refine ⟨?_, ?_, ?_⟩
  · by_cases h : share.expiresAt < now
    · simp [getShareByCode, hget, h]
    · simp [getShareByCode, hget, h]
  · intro h
    simp [getShareByCode, hget, h, Store.get_del_self]
  · by_cases h : share.expiresAt < now
    · simp [cleanupExpired, hf, h]
    · simp [cleanupExpired, hf, h]

/-- C7 witness: the share expiring at 100, observed at time 150. -/
theorem expiry_strict_lt_both_paths_witness :
    ((getShareByCode w7St ("AB") 150).1 = none ↔ w7Share.expiresAt < 150)
      ∧ (w7Share.expiresAt < 150 →
          Store.get (getShareByCode w7St ("AB") 150).2.shares ("AB") = none)
      ∧ (Store.get (cleanupExpired w7St 150).shares ("AB") = none
          ↔ w7Share.expiresAt < 150) :=
  expiry_strict_lt_both_paths w7St ("AB") 150 w7Share (by decide)
    (by simp [Store.Nodup, Store.keys, w7St])

/-- C8: on a live room, the Touch performed by the broker — an update
carrying only `activeUsers` — produces a session that differs from the stored
one in `activeUsers` alone: `expiresAt`, `id`, `shareCode` and `createdAt`
are untouched, so activity never extends the room lifetime. -/
theorem touch_preserves_all_but_activeUsers (st : StorageState) (code : String)
    (n now : Nat) (s : ChatSession)
    (hget : Store.get st.chatSessions code = some s)
    (_hlive : ¬ s.expiresAt < now) :
    updateChatSession st code { activeUsers := some n }
      = (some { s with activeUsers := n },
         { st with chatSessions :=
             Store.set st.chatSessions code { s with activeUsers := n } }) := by
  simp [updateChatSession, applyChatSessionPatch, hget]

/-- C8 witness: touching the live session S1 with a count of 3 at time 5. -/
theorem touch_preserves_all_but_activeUsers_witness :
    updateChatSession w8St ("S1") { activeUsers := some 3 }
      = (some { w8Session with activeUsers := 3 },
         { w8St with chatSessions :=
             Store.set w8St.chatSessions ("S1") { w8Session with activeUsers := 3 } }) :=
  touch_preserves_all_but_activeUsers w8St ("S1") 3 5 w8Session (by decide) (by decide)

/-- C9: appending message 1 and then message 2 to the same room makes the
history of that room equal to the previous history followed by message 1 and
then message 2, in arrival order; and the history of a code with no stored
log is the empty sequence. -/
theorem history_in_arrival_order (st : StorageState)
    (ins1 ins2 : InsertChatMessage) (id1 id2 : String) (t1 t2 : Nat)
    (hsame : ins2.shareCode = ins1.shareCode)
    (stA : StorageState) (c : String)
    (habsent : Store.get stA.chatMessages c = none) :
    getChatMessages
        (createChatMessage (createChatMessage st ins1 id1 t1).2 ins2 id2 t2).2
        ins1.shareCode
      = getChatMessages st ins1.shareCode
          ++ [(createChatMessage st ins1 id1 t1).1,
              (createChatMessage (createChatMessage st ins1 id1 t1).2 ins2 id2 t2).1]
      ∧ getChatMessages stA c = [] := by
  constructor
  · simp [createChatMessage, getChatMessages, hsame, Store.get_set_self]
  · simp [getChatMessages, habsent]

/-- C9 witness: two messages into room M1 of an empty store, and the history
of the absent code ZZ. -/
theorem history_in_arrival_order_witness :
    getChatMessages
        (createChatMessage (createChatMessage {} w9Ins1 ("m1") 1).2 w9Ins2 ("m2") 2).2
        w9Ins1.shareCode
      = getChatMessages {} w9Ins1.shareCode
          ++ [(createChatMessage {} w9Ins1 ("m1") 1).1,
              (createChatMessage (createChatMessage {} w9Ins1 ("m1") 1).2 w9Ins2
                ("m2") 2).1]
      ∧ getChatMessages {} ("ZZ") = [] :=
  history_in_arrival_order {} w9Ins1 w9Ins2 ("m1") ("m2") 1 2 rfl {} ("ZZ") rfl

/-- C10: `updateShare` on a code absent from the share store returns `none`
and leaves the whole storage state exactly as it was — in particular it never
creates an entry from the updates. -/
theorem updateShare_absent_code_noop (st : StorageState) (code : String)
    (p : SharePatch) (habsent : Store.get st.shares code = none) :
    updateShare st code p = (none, st) := by
  simp [updateShare, habsent]

/-- C10 witness: an arbitrary patch against the empty store. -/
theorem updateShare_absent_code_noop_witness :
    updateShare {} ("ZZ") { content := some "boo" } = (none, ({} : StorageState)) :=
  updateShare_absent_code_noop {} ("ZZ") { content := some "boo" } rfl


end QuickShare
